import Mathlib

/-!
Verification development for the loader core (Core/Loaders.cpp): file-accessor
pipeline construction, file-type identification, load dispatch, and the
UMD media-replace operation.  Machine integers do not overflow in this slice
(sizes and offsets are plain counts), so sizes are modelled as Nat and file
bytes as Nat values below 256 read from a byte list.
-/

namespace Loaders

/-! ## String and byte helpers -/

/-- Lowercase every character of a string (mirrors per-character tolower). -/
def strLower (s : String) : String := String.mk (s.data.map Char.toLower)

/-- Split a char list at every occurrence of sep (the separator is dropped). -/
def splitChars (sep : Char) (cs : List Char) : List (List Char) :=
  List.foldr
    (fun c acc =>
      if c = sep then [] :: acc
      else
        match acc with
        | [] => [[c]]
        | g :: rest => (c :: g) :: rest)
    [[]] cs

/-- Split a string at every occurrence of the character sep
(mirrors std::string / String.splitOn splitting on a one-char separator). -/
def splitOnChar (sep : Char) (s : String) : List String :=
  (splitChars sep s.data).map String.mk

/-- Join strings with a separator between consecutive elements. -/
def joinWith (sep : String) : List String → String
  | [] => ""
  | [s1] => s1
  | s1 :: s2 :: rest => s1 ++ sep ++ joinWith sep (s2 :: rest)

/-- Does s start with the literal pre (mirrors startsWith)? -/
def strStarts (s pre : String) : Bool := List.isPrefixOf pre.data s.data

/-- Drop the first n characters of a string (mirrors substr(n)). -/
def strDrop (s : String) (n : Nat) : String := String.mk (List.drop n s.data)

/-- Does sub occur as a contiguous run inside l? -/
def listInfixOf (sub : List Char) : List Char → Bool
  | [] => List.isEmpty sub
  | c :: rest => List.isPrefixOf sub (c :: rest) || listInfixOf sub rest

/-- Substring containment on strings (mirrors strstr / std::string::find != npos). -/
def strContains (s sub : String) : Bool := listInfixOf sub.toList s.toList

/-- Index search helper: first position at which sub occurs in the char list. -/
def findSubstrAux (sub : List Char) : List Char → Nat → Option Nat
  | [], i => if sub = [] then some i else none
  | c :: rest, i =>
    if List.isPrefixOf sub (c :: rest) then some i
    else findSubstrAux sub rest (i + 1)

/-- First position of sub in s (mirrors std::string::find: none is npos). -/
def findSubstrPos (s sub : String) : Option Nat := findSubstrAux sub.toList s.toList 0

/-- Little-endian 32-bit value of a 4-byte list (mirrors a u32_le load). -/
def le32 (bs : List Nat) : Nat :=
  match bs with
  | [b0, b1, b2, b3] => b0 + 256 * b1 + 65536 * b2 + 16777216 * b3
  | _ => 0

/-- Positional 4-byte little-endian read.  Mirrors ReadAt(ofs, 4, 1, &out):
fewer than 4 available bytes reads zero whole items and leaves out untouched. -/
def readLE32 (content : List Nat) (ofs : Nat) : Option Nat :=
  let bs := List.take 4 (List.drop ofs content)
  if List.length bs = 4 then some (le32 bs) else none

/-- Positional read into a zero-initialized buffer of length n: available bytes
first, the rest of the buffer keeps its zero initialization. -/
def readPadded (content : List Nat) (ofs n : Nat) : List Nat :=
  let got := List.take n (List.drop ofs content)
  got ++ List.replicate (n - List.length got) 0

/-! ## Paths

Modelled from the spec (§6, path semantics): a platform-shaped path is a list
of components joined by slashes, with filename/extension extraction,
parent/child navigation, and substring queries on its text form. -/

/-- Modelled from the spec: a path as its slash-separated component list
(the Path class itself is declared outside this slice). -/
structure Path where
  components : List String
deriving DecidableEq, Repr

/-- Text form of a path (Path::ToString). -/
def Path.toString (p : Path) : String := joinWith "/" p.components

/-- Modelled from the spec: Path::size is the length of the text form. -/
def Path.size (p : Path) : Nat := p.toString.length

/-- Modelled from the spec: Path::GetFilename, the final component. -/
def Path.GetFilename (p : Path) : String := List.getLastD p.components ""

/-- Modelled from the spec: Path::NavigateUp drops the final component. -/
def Path.NavigateUp (p : Path) : Path := ⟨List.dropLast p.components⟩

/-- Modelled from the spec: the / operator appends one child component. -/
def Path.child (p : Path) (c : String) : Path := ⟨p.components ++ [c]⟩

/-- Modelled from the spec: construct a path from its text form. -/
def Path.ofString (s : String) : Path := ⟨splitOnChar '/' s⟩

/-- Modelled from the spec: Path::GetDirectory, the text form without the
final component. -/
def Path.GetDirectory (p : Path) : String :=
  joinWith "/" (List.dropLast p.components)

/-- Modelled from the spec: Path::ToVisualString displays the text form. -/
def Path.ToVisualString (p : Path) : String := p.toString

/-- Modelled from the spec: Path::FilePathContains, substring query on the text. -/
def Path.FilePathContains (p : Path) (sub : String) : Bool := strContains p.toString sub

/-- Modelled from the spec: Path::GetFileExtension, the lowercased suffix of the
filename from its last dot (empty when the filename has no dot). -/
def Path.GetFileExtension (p : Path) : String :=
  let parts := splitOnChar '.' (p.GetFilename)
  if parts.length ≤ 1 then "" else "." ++ strLower (List.getLastD parts "")

/-- Modelled from the spec: the path kind, distinguishing network locators. -/
inductive PathType where
  | LOCAL
  | HTTP
deriving DecidableEq, Repr

/-- Modelled from the spec: Path::Type recognizes network locators by scheme. -/
def Path.TypeOf (p : Path) : PathType :=
  if strStarts p.toString "http://" = true ∨ strStarts p.toString "https://" = true then
    PathType.HTTP
  else
    PathType.LOCAL

/-! ## File-loader pipeline construction (ConstructFileLoader)

The structural view of a loader: which concrete accessor sits at the bottom
and which decorators wrap it, innermost first.  The decorator classes
themselves are external collaborators; only the composition built by
ConstructFileLoader is in scope. -/

/-- A constructed loader pipeline: base accessors and decorator layers. -/
inductive FileLoaderT where
  | LocalFileLoader (filename : Path)
  | HTTPFileLoader (filename : Path)
  | RetryingFileLoader (backend : FileLoaderT)
  | DiskCachingFileLoader (backend : FileLoaderT)
  | CachingFileLoader (backend : FileLoaderT)
deriving DecidableEq, Repr

/-- PSP_CoreParameter(), reduced to the one field this slice reads. -/
structure CoreParameter where
  headLess : Bool
deriving DecidableEq, Repr

/-- ConstructFileLoader: network paths get Retry around HTTP, DiskCaching
unless headless, and Caching outermost; otherwise the first registered factory
whose key string starts the path constructs the loader; otherwise a plain
LocalFileLoader.  The registry is passed as its key-ordered entry list. -/
def ConstructFileLoader (factories : List (String × (Path → FileLoaderT)))
    (coreParameter : CoreParameter) (filename : Path) : FileLoaderT :=
  if filename.TypeOf = PathType.HTTP then
    let baseLoader := FileLoaderT.RetryingFileLoader (FileLoaderT.HTTPFileLoader filename)
    let baseLoader2 :=
      if coreParameter.headLess = false then FileLoaderT.DiskCachingFileLoader baseLoader
      else baseLoader
    FileLoaderT.CachingFileLoader baseLoader2
  else
    match List.find? (fun it => strStarts (filename.toString) it.1) factories with
    | some it => it.2 filename
    | none => FileLoaderT.LocalFileLoader filename

/-! ## File identification (Identify_File) -/

/-- The closed enumeration of identified types.  The UNKNOWN_ISO value exists
in the enumeration (declared outside this slice) but is never produced by
Identify_File; it reaches LoadFile only through its default arm. -/
inductive IdentifiedFileType where
  | ERROR_IDENTIFYING
  | PSP_PBP_DIRECTORY
  | PSP_PBP
  | PSP_ELF
  | PSP_ISO
  | PSP_ISO_NP
  | PSP_DISC_DIRECTORY
  | UNKNOWN_BIN
  | UNKNOWN_ELF
  | UNKNOWN_ISO
  | ARCHIVE_RAR
  | ARCHIVE_ZIP
  | ARCHIVE_7Z
  | PSP_PS1_PBP
  | PPSSPP_SAVESTATE
  | PPSSPP_GE_DUMP
  | NORMAL_DIRECTORY
  | PSP_SAVEDATA_DIRECTORY
  | ISO_MODE2
  | UNKNOWN
deriving DecidableEq, Repr

/-- Modelled from the spec: the numeric value of each enumerator in its
declaration order (the enum declaration is outside this slice); used only to
render the unsupported-type message of UmdReplace. -/
def typeNum : IdentifiedFileType → Nat
  | .ERROR_IDENTIFYING => 0
  | .PSP_PBP_DIRECTORY => 1
  | .PSP_PBP => 2
  | .PSP_ELF => 3
  | .PSP_ISO => 4
  | .PSP_ISO_NP => 5
  | .PSP_DISC_DIRECTORY => 6
  | .UNKNOWN_BIN => 7
  | .UNKNOWN_ELF => 8
  | .UNKNOWN_ISO => 9
  | .ARCHIVE_RAR => 10
  | .ARCHIVE_ZIP => 11
  | .ARCHIVE_7Z => 12
  | .PSP_PS1_PBP => 13
  | .PPSSPP_SAVESTATE => 14
  | .PPSSPP_GE_DUMP => 15
  | .NORMAL_DIRECTORY => 16
  | .PSP_SAVEDATA_DIRECTORY => 17
  | .ISO_MODE2 => 18
  | .UNKNOWN => 19

/-- The observable state of a FileLoader accessor plus the answers of the
external collaborators Identify_File consults about it.  The child-existence
flags stand for File::Exists on the named children of the path; the pbp fields
stand for the packaged-container parser (PBPReader / ParamSFOData):
pbpSFOCategory is some cat when GetSubFile(PBP_PARAM_SFO) succeeds and the
metadata CATEGORY field reads back as cat, none when GetSubFile fails.
Those collaborators are modelled from the spec (§6); everything else mirrors
the accessor capability contract. -/
structure Accessor where
  exists_ : Bool
  isDirectory : Bool
  fileSize : Nat
  content : List Nat
  path : Path
  latestError : String
  hasEbootChild : Bool
  hasPSPGameChild : Bool
  hasParamSFOChild : Bool
  pbpValid : Bool
  pbpIsELF : Bool
  pbpSFOCategory : Option String
deriving DecidableEq, Repr

def zipMagic1 : List Nat := [80, 75, 3, 4]
def zipMagic2 : List Nat := [80, 75, 5, 6]
def zipMagic3 : List Nat := [80, 75, 7, 8]
def rarMagic : List Nat := [82, 97, 114, 33]
def pbpMagic : List Nat := [0, 80, 66, 80]

/-- The u32 value of the ELF magic bytes 7F 45 4C 46 read little-endian. -/
def elfMagicValue : Nat := 0x464C457F

/-- The u32 value of the PBP magic bytes 00 50 42 50 read little-endian. -/
def pbpMagicValue : Nat := 0x50425000

/-- LE u32 of the first four PSAR bytes of an NPUMDIMG (networked image) PSAR. -/
def npumdimgValue : Nat := 0x4D55504E

/-- LE u32 of the first four PSAR bytes of a PSISOIMG (PS1 image) PSAR. -/
def psisoimgValue : Nat := 0x53495350

/-- The 12-byte sector sync pattern of a mode-2 raw CD image. -/
def syncPattern : List Nat :=
  [0x00, 0xFF, 0xFF, 0xFF, 0xFF, 0xFF, 0xFF, 0xFF, 0xFF, 0xFF, 0xFF, 0x00]

/-- The 8-byte PPSSPPGE trace-dump tag. -/
def ppssppgeTag : List Nat := [80, 80, 83, 83, 80, 80, 71, 69]

/-- The PSAR id probe performed when the first four bytes are the PBP magic:
read a 32-bit offset at 0x24, then a 32-bit id at that offset; both locals
start at zero and keep it when their read fails. -/
def psarID (content : List Nat) : Nat :=
  if List.take 4 content = pbpMagic then
    match readLE32 content 0x24 with
    | some off =>
      match readLE32 content off with
      | some v => v
      | none => 0
    | none => 0
  else 0

/-- The magic-dispatch tail of Identify_File, after the 4-byte id read
succeeded: zip/rar signatures, the ELF and PBP magics, then the extension
fallbacks. -/
def identifyMagic (fl : Accessor) (extension : String) : IdentifiedFileType × String :=
  if List.take 4 fl.content = zipMagic1 ∨ List.take 4 fl.content = zipMagic2 ∨
      List.take 4 fl.content = zipMagic3 then (.ARCHIVE_ZIP, "")
  else if List.take 4 fl.content = rarMagic then (.ARCHIVE_RAR, "")
  else if le32 (List.take 4 fl.content) = elfMagicValue then
    if extension = ".plf" ∨ strContains fl.path.GetFilename "BOOT.BIN" = true ∨
        extension = ".elf" ∨ extension = ".prx" ∨ extension = ".pbp" then
      (.PSP_ELF, "")
    else (.UNKNOWN_ELF, "")
  else if le32 (List.take 4 fl.content) = pbpMagicValue then
    if fl.pbpValid = true ∧ fl.pbpIsELF = false ∧ fl.pbpSFOCategory = some "ME" then
      (.PSP_PS1_PBP, "")
    else if psarID fl.content = npumdimgValue then (.PSP_ISO_NP, "")
    else if psarID fl.content = psisoimgValue then (.PSP_PS1_PBP, "")
    else if fl.path.FilePathContains "PSP/GAME/" = true then (.PSP_PBP_DIRECTORY, "")
    else (.PSP_PBP, "")
  else if extension = ".pbp" then (.PSP_PBP, "")
  else if extension = ".bin" then (.UNKNOWN_BIN, "")
  else if extension = ".zip" then (.ARCHIVE_ZIP, "")
  else if extension = ".rar" then (.ARCHIVE_RAR, "")
  else if extension = ".r00" then (.ARCHIVE_RAR, "")
  else if extension = ".r01" then (.ARCHIVE_RAR, "")
  else if extension = ".7z" then (.ARCHIVE_7Z, "")
  else (.UNKNOWN, "")

/-- Second half of Identify_File, from the directory probe onward: directory
children, then the 4-byte magic read (failing it with fewer than 4 bytes is
an identification error), then the magic dispatch. -/
def identifyRest (fl : Accessor) (extension : String) : IdentifiedFileType × String :=
  if fl.isDirectory = true then
    if fl.path.size > 4 then
      if fl.hasEbootChild = true then (.PSP_PBP_DIRECTORY, "")
      else if fl.hasPSPGameChild = true then (.PSP_DISC_DIRECTORY, "")
      else if fl.hasParamSFOChild = true then (.PSP_SAVEDATA_DIRECTORY, "")
      else (.NORMAL_DIRECTORY, "")
    else (.NORMAL_DIRECTORY, "")
  else if List.length fl.content < 4 then
    (.ERROR_IDENTIFYING, "Failed to read identification bytes")
  else identifyMagic fl extension

/-- Identify_File.  The C++ signature writes through a string out-parameter
that it clears on entry; here the incoming slot value is the second argument
and the returned string is its final value.  The iso sync probe ignores the
read result: a file shorter than 12 bytes leaves the tail of the sync buffer
unspecified, which never matches the full pattern, so the comparison is
modelled on the available bytes only. -/
def Identify_File : Option Accessor → String → IdentifiedFileType × String
  | none, _errorStringIn => (.ERROR_IDENTIFYING, "Invalid fileLoader")
  | some fl, _errorStringIn =>
    if fl.path.size = 0 then
      (.ERROR_IDENTIFYING, "Invalid filename " ++ fl.path.toString)
    else if fl.exists_ = false then
      (.ERROR_IDENTIFYING, "IdentifyFile: File doesn\x27t exist" ++ fl.path.toString)
    else if fl.path.GetFileExtension = ".iso" then
      if fl.fileSize % 2352 = 0 ∧ List.take 12 fl.content = syncPattern then
        (.ISO_MODE2, "ISO in Mode 2: Not a PSP game")
      else
        (.PSP_ISO, "")
    else if fl.path.GetFileExtension = ".cso" then (.PSP_ISO, "")
    else if fl.path.GetFileExtension = ".ppst" then (.PPSSPP_SAVESTATE, "")
    else if fl.path.GetFileExtension = ".ppdmp" ∧ readPadded fl.content 0 8 = ppssppgeTag then
      (.PPSSPP_GE_DUMP, "")
    else identifyRest fl (fl.path.GetFileExtension)

/-! ## PBP directory and file resolution -/

/-- ResolvePBPDirectory: an EBOOT.PBP path navigates up to its directory. -/
def ResolvePBPDirectory (filename : Path) : Path :=
  if filename.GetFilename = "EBOOT.PBP" then filename.NavigateUp else filename

/-- ResolvePBPFile: a non-EBOOT.PBP path gains an EBOOT.PBP child. -/
def ResolvePBPFile (filename : Path) : Path :=
  if filename.GetFilename ≠ "EBOOT.PBP" then filename.child "EBOOT.PBP" else filename

/-- ResolveFileLoaderTarget with a replacement flag: when the accessor
identifies as a PBP directory and the EBOOT path differs, the old accessor is
deleted and a fresh one is constructed for the EBOOT path.  The world function
gives the accessor that ConstructFileLoader would observe for a path.  The
flag records that the incoming accessor was deleted. -/
def ResolveFileLoaderTargetR (world : Path → Accessor) (fileLoader : Accessor) :
    Accessor × Bool :=
  if (Identify_File (some fileLoader) "").1 = IdentifiedFileType.PSP_PBP_DIRECTORY then
    if ResolvePBPFile fileLoader.path ≠ fileLoader.path then
      (world (ResolvePBPFile fileLoader.path), true)
    else (fileLoader, false)
  else (fileLoader, false)

/-- ResolveFileLoaderTarget, result only. -/
def ResolveFileLoaderTarget (world : Path → Accessor) (fileLoader : Accessor) : Accessor :=
  (ResolveFileLoaderTargetR world fileLoader).1

/-! ## Load dispatch (LoadFile) -/

/-- Modelled from the spec: the process-wide coarse execution state; this
slice only ever writes the boot-error marker. -/
inductive CoreState where
  | CORE_RUNNING
  | CORE_NEXTFRAME
  | CORE_STEPPING
  | CORE_POWERUP
  | CORE_POWERDOWN
  | CORE_BOOT_ERROR
  | CORE_RUNTIME_ERROR
deriving DecidableEq, Repr

/-- The downstream routine a dispatch handed off to. -/
inductive DispatchTarget where
  | isoLoader
  | elfPbpLoader
  | geDumpLoader
deriving DecidableEq, Repr

/-- External loading routines and the disc-memory reinitializer, supplied as
oracles: each loader takes the accessor and the current error-message slot and
returns success plus the final slot value.  Their own internal effects are
out of scope; LoadFile and UmdReplace only observe these results. -/
structure Externals where
  Load_PSP_ISO : Option Accessor → String → Bool × String
  Load_PSP_ELF_PBP : Option Accessor → String → Bool × String
  Load_PSP_GE_Dump : Option Accessor → String → Bool × String
  ReInitMemoryForGameISO : Accessor → Bool

/-- Everything LoadFile leaves behind: return value, final error-message slot,
the coarse execution state, which downstream routine (if any) it handed off
to, the accessor left in the in-out loader slot, every starting-directory the
virtual filesystem was given, and whether InitMemoryForGameISO ran. -/
structure LoadFileResult where
  ok : Bool
  error_string : String
  coreState : CoreState
  dispatched : Option DispatchTarget
  fileLoader : Option Accessor
  startingDirCalls : List String
  initMemoryCalled : Bool
deriving DecidableEq, Repr

/-- Path text of an accessor slot; the none case cannot be reached where this
is used (the identification result there guarantees a non-null loader). -/
def optPathString : Option Accessor → String
  | some f => f.path.toString
  | none => ""

/-- fileLoader ? fileLoader->LatestError() : "" -/
def optLatestError : Option Accessor → String
  | some f => f.latestError
  | none => ""

/-- The message construction of the ERROR_IDENTIFYING arm of LoadFile: the
identification error, a colon-space separator, the accessor error, then a
fallback to a generic text when the combination is empty. -/
def identErrorMessage (identError latestError : String) : String :=
  let combined := identError ++ ": " ++ latestError
  if combined = "" then "Error reading file" else combined

/-- LoadFile.  The in-out FileLoader argument is fileLoader0 and comes back in
the fileLoader field of the result; world gives the accessor a re-constructed
loader would observe for a path (used by the PBP-directory resolution). -/
def LoadFile (env : Externals) (world : Path → Accessor) (coreState0 : CoreState)
    (fileLoader0 : Option Accessor) (errorString0 : String) : LoadFileResult :=
  let idr0 := Identify_File fileLoader0 errorString0
  let err1 := idr0.2
  match idr0.1, fileLoader0 with
  | .PSP_PBP_DIRECTORY, some fl =>
    let fl2 := ResolveFileLoaderTarget world fl
    if fl2.exists_ = true then
      let idr := Identify_File (some fl2) err1
      if idr.1 = .PSP_ISO_NP then
        let call := env.Load_PSP_ISO (some fl2) idr.2
        ⟨call.1, call.2, coreState0, some .isoLoader, some fl2, ["disc0:/PSP_GAME/USRDIR"], true⟩
      else if idr.1 = .PSP_PS1_PBP then
        ⟨false, "PS1 EBOOTs are not supported by PPSSPP.", .CORE_BOOT_ERROR, none, some fl2,
          [], false⟩
      else if idr.1 = .ERROR_IDENTIFYING then
        ⟨false, idr.2, .CORE_BOOT_ERROR, none, some fl2, [], false⟩
      else
        let dir := fl2.path.GetDirectory
        let calls :=
          match findSubstrPos dir "PSP/GAME/" with
          | some pos =>
            ["ms0:/" ++ strDrop ((ResolvePBPDirectory (Path.ofString dir)).toString) pos]
          | none => []
        let call := env.Load_PSP_ELF_PBP (some fl2) idr.2
        ⟨call.1, call.2, coreState0, some .elfPbpLoader, some fl2, calls, false⟩
    else
      ⟨false, "No EBOOT.PBP, misidentified game", .CORE_BOOT_ERROR, none, some fl2, [], false⟩
  | .PSP_PBP_DIRECTORY, none =>
    -- Unreachable: Identify_File never classifies a null loader as a PBP directory.
    ⟨false, err1, .CORE_BOOT_ERROR, none, none, [], false⟩
  | .PSP_PBP, _ | .PSP_ELF, _ =>
    let call := env.Load_PSP_ELF_PBP fileLoader0 err1
    ⟨call.1, call.2, coreState0, some .elfPbpLoader, fileLoader0, [], false⟩
  | .PSP_ISO, _ | .PSP_ISO_NP, _ | .PSP_DISC_DIRECTORY, _ =>
    let call := env.Load_PSP_ISO fileLoader0 err1
    ⟨call.1, call.2, coreState0, some .isoLoader, fileLoader0, ["disc0:/PSP_GAME/USRDIR"],
      false⟩
  | .PSP_PS1_PBP, _ =>
    ⟨false, "PS1 EBOOTs are not supported by PPSSPP.", .CORE_BOOT_ERROR, none, fileLoader0,
      [], false⟩
  | .ARCHIVE_RAR, _ =>
    -- Non-Windows build of the message is modelled.
    ⟨false, "RAR file detected (Require UnRAR)", .CORE_BOOT_ERROR, none, fileLoader0, [],
      false⟩
  | .ARCHIVE_ZIP, _ =>
    ⟨false, "ZIP file detected (Require UnRAR)", .CORE_BOOT_ERROR, none, fileLoader0, [],
      false⟩
  | .ARCHIVE_7Z, _ =>
    ⟨false, "7z file detected (Require 7-Zip)", .CORE_BOOT_ERROR, none, fileLoader0, [],
      false⟩
  | .ISO_MODE2, _ =>
    ⟨false, "PSX game image detected.", .CORE_BOOT_ERROR, none, fileLoader0, [], false⟩
  | .NORMAL_DIRECTORY, _ =>
    ⟨false, "Just a directory.", .CORE_BOOT_ERROR, none, fileLoader0, [], false⟩
  | .PPSSPP_SAVESTATE, _ =>
    ⟨false, "This is a saved state, not a game.", .CORE_BOOT_ERROR, none, fileLoader0, [],
      false⟩
  | .PSP_SAVEDATA_DIRECTORY, _ =>
    ⟨false, "This is save data, not a game.", .CORE_BOOT_ERROR, none, fileLoader0, [],
      false⟩
  | .PPSSPP_GE_DUMP, _ =>
    let call := env.Load_PSP_GE_Dump fileLoader0 err1
    ⟨call.1, call.2, coreState0, some .geDumpLoader, fileLoader0, [], false⟩
  | .UNKNOWN_BIN, fl | .UNKNOWN_ELF, fl | .UNKNOWN, fl =>
    ⟨false, "Unknown file type: " ++ optPathString fl, .CORE_BOOT_ERROR, none, fl, [],
      false⟩
  | .ERROR_IDENTIFYING, fl =>
    ⟨false, identErrorMessage err1 (optLatestError fl), .CORE_BOOT_ERROR, none, fl, [],
      false⟩
  | t, fl =>
    -- The default arm; only UNKNOWN_ISO can land here.
    ⟨false, "Unhandled identified file type " ++ toString (typeNum t), .CORE_BOOT_ERROR,
      none, fl, [], false⟩

/-! ## Media replace (UmdReplace) -/

/-- The session state UmdReplace sees: whether a disc filesystem is mounted at
disc0:, and which accessor is registered as the loaded file. -/
structure UmdSession where
  hasDisc : Bool
  loadedFile : Option Accessor
deriving DecidableEq, Repr

/-- Modelled from the spec (§4.5): UpdateLoadedFile registers the accessor as
the session loaded-file binding, releasing the one registered before. -/
def UpdateLoadedFile (session : UmdSession) (fl : Accessor) : UmdSession :=
  ⟨session.hasDisc, some fl⟩

/-- Everything UmdReplace leaves behind.  loadedFile is the registered binding
after the call; newConstructed says an accessor was built for the replacement
path; newReleased says that accessor was deleted before returning;
resolvedReplaced says PBP-directory resolution deleted the registered accessor
and substituted a fresh one; oldReleased says the previously registered
binding was released (by UpdateLoadedFile); reinitCalled says the disc-memory
reinitializer ran. -/
structure UmdReplaceResult where
  ok : Bool
  error : String
  coreState : CoreState
  loadedFile : Option Accessor
  newConstructed : Bool
  newReleased : Bool
  resolvedReplaced : Bool
  oldReleased : Bool
  reinitCalled : Bool
deriving DecidableEq, Repr

/-- UmdReplace: check the disc mount, construct an accessor for the
replacement path, fail (deleting it) when it does not exist, register it with
UpdateLoadedFile, resolve PBP-directory indirection, re-identify, and
reinitialize disc memory for the disc-image family; any other identified type
fails with the numeric type and identification message.  The error argument
is the caller's in-out message slot; coreState0 is the coarse execution state,
which this function never writes. -/
def UmdReplace (env : Externals) (world : Path → Accessor) (session : UmdSession)
    (coreState0 : CoreState) (error0 : String) (filepath : Path) : UmdReplaceResult :=
  if session.hasDisc = false then
    ⟨false, "has no disc", coreState0, session.loadedFile, false, false, false, false, false⟩
  else
    let loadedFile := world filepath
    if loadedFile.exists_ = false then
      -- The message is built from the accessor after delete runs on it (a
      -- use-after-free in the source); the model reads the value it had.
      ⟨false, loadedFile.path.ToVisualString ++ " doesn\x27t exist", coreState0,
        session.loadedFile, true, true, false, false, false⟩
    else
      let session2 := UpdateLoadedFile session loadedFile
      let rr := ResolveFileLoaderTargetR world loadedFile
      let loadedFile2 := rr.1
      let idr := Identify_File (some loadedFile2) ""
      match idr.1 with
      | .PSP_ISO | .PSP_ISO_NP | .PSP_DISC_DIRECTORY =>
        if env.ReInitMemoryForGameISO loadedFile2 = false then
          ⟨false, "reinit memory failed", coreState0, session2.loadedFile, true, false,
            rr.2, true, true⟩
        else
          ⟨true, error0, coreState0, session2.loadedFile, true, false, rr.2, true, true⟩
      | t =>
        ⟨false, "Unsupported file type: " ++ toString (typeNum t) ++ " " ++ idr.2,
          coreState0, session2.loadedFile, true, false, rr.2, true, false⟩

/-! ## Concrete fixtures used by witnesses and counterexamples -/

/-- A zero-byte existing file named empty.bin. -/
def accEmptyBin : Accessor :=
  ⟨true, false, 0, [], ⟨["empty.bin"]⟩, "", false, false, false, false, false, none⟩

/-- A one-sector (2352-byte) iso whose first 12 bytes are the sync pattern. -/
def accIsoSync : Accessor :=
  ⟨true, false, 2352, syncPattern ++ List.replicate 2340 0, ⟨["game.iso"]⟩, "",
    false, false, false, false, false, none⟩

/-- A directory that is itself named EBOOT.PBP and contains an EBOOT.PBP child. -/
def accEbootDir : Accessor :=
  ⟨true, true, 0, [], ⟨["x", "EBOOT.PBP"]⟩, "", true, false, false, false, false, none⟩

/-- An ordinary game directory containing an EBOOT.PBP child. -/
def accPbpDir : Accessor :=
  ⟨true, true, 0, [], ⟨["ms0:", "PSP", "GAME", "TITLE"]⟩, "", true, false, false, false,
    false, none⟩

/-- An existing four-byte file matching no magic and no known extension. -/
def accUnknown : Accessor :=
  ⟨true, false, 4, [1, 2, 3, 4], ⟨["file.xyz"]⟩, "", false, false, false, false, false, none⟩

/-- An existing file named game.cso. -/
def accCso : Accessor :=
  ⟨true, false, 100, [1, 2, 3, 4], ⟨["game.cso"]⟩, "", false, false, false, false, false,
    none⟩

/-- A network-locator path. -/
def pathHttp : Path := Path.ofString "http://example.com/game.iso"

/-- The path of accUnknown. -/
def pathXyz : Path := ⟨["file.xyz"]⟩

/-- External routines that all fail, for exercising failure propagation. -/
def envNull : Externals :=
  ⟨fun _ e => (false, e), fun _ e => (false, e), fun _ e => (false, e), fun _ => false⟩

/-- A world in which every path constructs the accUnknown accessor. -/
def worldUnknown : Path → Accessor := fun _ => accUnknown

/-! ## Claim theorems -/

/-- C2, counterexample.  A zero-byte existing file with extension .bin is not
classified UNKNOWN_BIN: the mandatory 4-byte magic read fails first and the
classification is ERROR_IDENTIFYING. -/
theorem identify_zero_bin_cex :
    (Identify_File (some accEmptyBin) "").1 ≠ IdentifiedFileType.UNKNOWN_BIN ∧
    Identify_File (some accEmptyBin) "" =
      (IdentifiedFileType.ERROR_IDENTIFYING, "Failed to read identification bytes") ∧
    accEmptyBin.fileSize = 0 ∧ accEmptyBin.content = [] ∧
    accEmptyBin.path.GetFileExtension = ".bin" ∧ accEmptyBin.exists_ = true := by
  decide

/-- C2, amended.  Every existing non-directory zero-byte accessor whose path
has extension .bin classifies as ERROR_IDENTIFYING with the short-read
message: the 4-byte magic read must succeed before the .bin extension
fallback is consulted.  The short read does not crash or hang (the function
is total) but it does change the classification. -/
theorem identify_zero_bin_error (acc : Accessor) (e : String)
    (hex : acc.exists_ = true) (hdir : acc.isDirectory = false)
    (hc : acc.content = []) (hext : acc.path.GetFileExtension = ".bin")
    (hp : 0 < acc.path.size) :
    Identify_File (some acc) e =
      (IdentifiedFileType.ERROR_IDENTIFYING, "Failed to read identification bytes") := by
  have h0 : ¬ acc.path.size = 0 := Nat.pos_iff_ne_zero.mp hp
  simp [Identify_File, identifyRest, hext, hex, hdir, hc, h0]

/-- C2, witness for the amended theorem at the concrete zero-byte .bin file. -/
theorem identify_zero_bin_error_witness :
    Identify_File (some accEmptyBin) "" =
      (IdentifiedFileType.ERROR_IDENTIFYING, "Failed to read identification bytes") :=
  identify_zero_bin_error accEmptyBin "" rfl rfl rfl (by decide) (by decide)

/-- C3.  For every existing accessor with extension .iso: with size an exact
positive multiple of 2352 and content of that length, the classification is
ISO_MODE2 exactly when the first 12 bytes are the sync pattern and PSP_ISO
when they differ; when the size is not a multiple of 2352 the classification
is PSP_ISO regardless of content. -/
theorem identify_iso_classification (acc : Accessor) (e : String) (k : Nat)
    (hex : acc.exists_ = true) (hp : 0 < acc.path.size)
    (hext : acc.path.GetFileExtension = ".iso") :
    (0 < k → acc.fileSize = 2352 * k → List.length acc.content = acc.fileSize →
      ((List.take 12 acc.content = syncPattern →
        Identify_File (some acc) e =
          (IdentifiedFileType.ISO_MODE2, "ISO in Mode 2: Not a PSP game")) ∧
       (List.take 12 acc.content ≠ syncPattern →
        Identify_File (some acc) e = (IdentifiedFileType.PSP_ISO, "")))) ∧
    (¬ acc.fileSize % 2352 = 0 →
      Identify_File (some acc) e = (IdentifiedFileType.PSP_ISO, "")) := by
  have h0 : ¬ acc.path.size = 0 := Nat.pos_iff_ne_zero.mp hp
  constructor
  · intro _ hsize _
    have hmod : acc.fileSize % 2352 = 0 := by
      rw [hsize]; exact Nat.mul_mod_right 2352 k
    constructor
    · intro hsync
      simp [Identify_File, hext, hex, h0, hmod, hsync]
    · intro hsync
      simp [Identify_File, hext, hex, h0, hsync]
  · intro hmod
    simp [Identify_File, hext, hex, h0, hmod]

/-- C3, witness at a one-sector sync-patterned iso (k = 1). -/
theorem identify_iso_classification_witness :
    Identify_File (some accIsoSync) "" =
      (IdentifiedFileType.ISO_MODE2, "ISO in Mode 2: Not a PSP game") :=
  (((identify_iso_classification accIsoSync "" 1 rfl (by decide) (by decide)).1
    (by decide) (by decide)
    (by
      show List.length (syncPattern ++ List.replicate 2340 0) = 2352
      rw [List.length_append, List.length_replicate]
      rfl)).1 (by decide))

/-- C4.  For a network-locator path the constructed pipeline is exactly
Caching over (DiskCaching when not headless over) Retrying over HTTP, with
the memory cache outermost; for any other path with no matching factory key
the result is a plain LocalFileLoader (the function is total, so it never
returns null). -/
theorem constructFileLoader_pipeline (factories : List (String × (Path → FileLoaderT)))
    (cp : CoreParameter) (p : Path) :
    (p.TypeOf = PathType.HTTP →
      ConstructFileLoader factories cp p =
        FileLoaderT.CachingFileLoader
          (if cp.headLess = false then
            FileLoaderT.DiskCachingFileLoader
              (FileLoaderT.RetryingFileLoader (FileLoaderT.HTTPFileLoader p))
          else FileLoaderT.RetryingFileLoader (FileLoaderT.HTTPFileLoader p))) ∧
    (¬ p.TypeOf = PathType.HTTP →
      (∀ it ∈ factories, strStarts (p.toString) it.1 = false) →
      ConstructFileLoader factories cp p = FileLoaderT.LocalFileLoader p) := by
  constructor
  · intro h
    simp [ConstructFileLoader, h]
  · intro h hfac
    have hnone : List.find? (fun it => strStarts (p.toString) it.1) factories = none := by
      rw [List.find?_eq_none]
      intro x hx
      simp [hfac x hx]
    simp [ConstructFileLoader, h, hnone]

/-- C4, witness: the full three-layer pipeline at a concrete http path in
non-headless mode. -/
theorem constructFileLoader_pipeline_witness :
    ConstructFileLoader [] ⟨false⟩ pathHttp =
      FileLoaderT.CachingFileLoader (FileLoaderT.DiskCachingFileLoader
        (FileLoaderT.RetryingFileLoader (FileLoaderT.HTTPFileLoader pathHttp))) := by
  have h := (constructFileLoader_pipeline [] ⟨false⟩ pathHttp).1 (by decide)
  simpa using h

/-- C7, counterexample.  A directory that is itself named EBOOT.PBP (and has
an EBOOT.PBP child) identifies as a PBP directory, yet resolving it to its
file and back does not return the original path: ResolvePBPFile leaves it
unchanged and ResolvePBPDirectory then navigates up. -/
theorem resolvePBP_roundtrip_cex :
    (Identify_File (some accEbootDir) "").1 = IdentifiedFileType.PSP_PBP_DIRECTORY ∧
    accEbootDir.isDirectory = true ∧
    ResolvePBPDirectory (ResolvePBPFile accEbootDir.path) ≠ accEbootDir.path := by
  decide

/-- C7, amended.  For every directory identifying as a PBP directory whose
own final component is not EBOOT.PBP, resolving to the contained file and
back yields the original directory path. -/
theorem resolvePBP_roundtrip (acc : Accessor) (e : String)
    (_hid : (Identify_File (some acc) e).1 = IdentifiedFileType.PSP_PBP_DIRECTORY)
    (_hdir : acc.isDirectory = true)
    (hname : acc.path.GetFilename ≠ "EBOOT.PBP") :
    ResolvePBPDirectory (ResolvePBPFile acc.path) = acc.path := by
  rw [ResolvePBPFile, if_pos hname]
  have h2 : (acc.path.child "EBOOT.PBP").GetFilename = "EBOOT.PBP" := by
    simp [Path.child, Path.GetFilename]
  rw [ResolvePBPDirectory, if_pos h2]
  simp [Path.NavigateUp, Path.child]

/-- C7, witness at a concrete game directory. -/
theorem resolvePBP_roundtrip_witness :
    ResolvePBPDirectory (ResolvePBPFile accPbpDir.path) = accPbpDir.path :=
  resolvePBP_roundtrip accPbpDir "" (by decide) rfl (by decide)

/-- C8.  Identify_File is deterministic and idempotent: its result does not
depend on the incoming error-slot value at all, so two calls on the same
unmodified accessor (the second receiving the slot the first left behind)
return the same type and message. -/
theorem identify_deterministic_idempotent (fl : Option Accessor) (e1 e2 : String) :
    Identify_File fl e1 = Identify_File fl e2 ∧
    Identify_File fl ((Identify_File fl e1).2) = Identify_File fl e1 := by
  constructor <;> cases fl <;> rfl

set_option maxHeartbeats 1000000 in
/-- The magic-dispatch tail never produces ISO_MODE2 or an identification
error, and always leaves the message empty. -/
theorem identifyMagic_message_empty (fl : Accessor) (ext : String) :
    (identifyMagic fl ext).1 ≠ IdentifiedFileType.ISO_MODE2 ∧
    (identifyMagic fl ext).1 ≠ IdentifiedFileType.ERROR_IDENTIFYING ∧
    (identifyMagic fl ext).2 = "" := by
  unfold identifyMagic
  repeat' split
  all_goals simp

/-- Shape of every identifyRest result: the short-read error with its fixed
message, or a non-error non-ISO_MODE2 type with the empty message. -/
theorem identifyRest_shape (fl : Accessor) (ext : String) :
    ((identifyRest fl ext).1 = IdentifiedFileType.ERROR_IDENTIFYING ∧
      (identifyRest fl ext).2 = "Failed to read identification bytes") ∨
    ((identifyRest fl ext).1 ≠ IdentifiedFileType.ISO_MODE2 ∧
      (identifyRest fl ext).1 ≠ IdentifiedFileType.ERROR_IDENTIFYING ∧
      (identifyRest fl ext).2 = "") := by
  unfold identifyRest
  repeat' split
  all_goals first
    | (left; exact ⟨rfl, rfl⟩)
    | (right; simp; done)
    | (right; exact identifyMagic_message_empty fl ext)

/-- Shape of every Identify_File result: the ISO_MODE2 value paired with its
fixed message, or an identification error, or any other type paired with the
empty message. -/
theorem identify_message_shape (fl : Option Accessor) (e : String) :
    ((Identify_File fl e).1 = IdentifiedFileType.ISO_MODE2 ∧
      (Identify_File fl e).2 = "ISO in Mode 2: Not a PSP game") ∨
    (Identify_File fl e).1 = IdentifiedFileType.ERROR_IDENTIFYING ∨
    ((Identify_File fl e).1 ≠ IdentifiedFileType.ISO_MODE2 ∧
      (Identify_File fl e).1 ≠ IdentifiedFileType.ERROR_IDENTIFYING ∧
      (Identify_File fl e).2 = "") := by
  cases fl with
  | none => right; left; rfl
  | some a =>
    simp only [Identify_File]
    repeat' split
    all_goals first
      | (left; exact ⟨rfl, rfl⟩)
      | (right; left; rfl)
      | (right; right; simp; done)
      | (rcases identifyRest_shape a (a.path.GetFileExtension) with ⟨h1, h2⟩ | ⟨h1, h2, h3⟩
         · right; left; exact h1
         · right; right; exact ⟨h1, h2, h3⟩)

/-- C10.  Identify_File ignores (conceptually clears) the incoming message
slot; every classification other than ERROR_IDENTIFYING and ISO_MODE2 comes
back with the empty message, and ISO_MODE2 is the only non-error type paired
with a non-empty message (its fixed mode-2 text). -/
theorem identify_message_invariant (fl : Option Accessor) (e : String) :
    ((Identify_File fl e).1 ≠ IdentifiedFileType.ERROR_IDENTIFYING →
      (Identify_File fl e).1 ≠ IdentifiedFileType.ISO_MODE2 →
      (Identify_File fl e).2 = "") ∧
    ((Identify_File fl e).1 = IdentifiedFileType.ISO_MODE2 →
      (Identify_File fl e).2 = "ISO in Mode 2: Not a PSP game" ∧
      (Identify_File fl e).2 ≠ "") ∧
    Identify_File fl e = Identify_File fl "" := by
  refine ⟨?_, ?_, ?_⟩
  · intro h1 h2
    rcases identify_message_shape fl e with ⟨hA, _⟩ | hE | ⟨_, _, hM⟩
    · exact absurd hA h2
    · exact absurd hE h1
    · exact hM
  · intro h
    rcases identify_message_shape fl e with ⟨_, hB⟩ | hE | ⟨hA, _, _⟩
    · rw [hB]; exact ⟨rfl, by decide⟩
    · rw [h] at hE; exact absurd hE (by decide)
    · exact absurd h hA
  · cases fl <;> rfl

/-- C10, witness: a .cso accessor called with a stale incoming slot comes
back with the empty message. -/
theorem identify_message_invariant_witness :
    (Identify_File (some accCso) "stale").2 = "" :=
  (identify_message_invariant (some accCso) "stale").1 (by decide) (by decide)

/-- C6, counterexample.  With an empty identification error and an empty
accessor error, the ERROR_IDENTIFYING message construction of LoadFile
produces the bare separator, not the generic default: the separator makes the
combined string non-empty, so the default branch is dead. -/
theorem identErrorMessage_default_dead_cex :
    identErrorMessage "" "" = ": " ∧ identErrorMessage "" "" ≠ "Error reading file" := by
  decide

/-- C6, amended.  The identification-error message is always the original
error, the colon-space separator, then the accessor error text; since the
separator makes it non-empty, the generic default text is never produced.
Inside LoadFile, the ERROR_IDENTIFYING arm produces exactly this
construction applied to the identification message and the loader's latest
error. -/
theorem identErrorMessage_behavior (o l : String) (env : Externals)
    (world : Path → Accessor) (cs : CoreState) (fl : Option Accessor) (e : String)
    (hid : (Identify_File fl e).1 = IdentifiedFileType.ERROR_IDENTIFYING) :
    identErrorMessage o l = o ++ ": " ++ l ∧
    (LoadFile env world cs fl e).error_string =
      identErrorMessage (Identify_File fl e).2 (optLatestError fl) := by
  constructor
  · have hne : ¬ (o ++ ": " ++ l) = "" := by
      intro h
      have hlen := congrArg String.length h
      rw [String.length_append, String.length_append] at hlen
      have h2 : (": ").length = 2 := rfl
      have h0 : ("" : String).length = 0 := rfl
      rw [h2, h0] at hlen
      omega
    simp [identErrorMessage, hne]
  · simp only [LoadFile, hid]

/-- C6, witness: a null loader identifies with message Invalid fileLoader and
LoadFile reports it with the separator appended (and no default text). -/
theorem identErrorMessage_behavior_witness :
    identErrorMessage "abc" "xyz" = "abc: xyz" ∧
    (LoadFile envNull worldUnknown CoreState.CORE_RUNNING none "").error_string =
      "Invalid fileLoader: " := by
  have h := identErrorMessage_behavior "abc" "xyz" envNull worldUnknown
    CoreState.CORE_RUNNING none "" (by decide)
  exact ⟨by rw [h.1]; decide, by rw [h.2]; decide⟩

/-- C5.  Every LoadFile branch that returns without handing off to a
downstream loading routine returns false and has set the boot-error marker;
and UmdReplace never modifies the coarse execution state, on any path. -/
theorem loadFile_fatal_sets_boot_error (env : Externals) (world : Path → Accessor)
    (cs : CoreState) (fl : Option Accessor) (e : String) :
    ((LoadFile env world cs fl e).dispatched = none →
      (LoadFile env world cs fl e).ok = false ∧
      (LoadFile env world cs fl e).coreState = CoreState.CORE_BOOT_ERROR) ∧
    (∀ (session : UmdSession) (e2 : String) (p : Path),
      (UmdReplace env world session cs e2 p).coreState = cs) := by
  constructor
  · simp only [LoadFile]
    repeat' split
    all_goals simp
  · intro session e2 p
    simp only [UmdReplace]
    repeat' split
    all_goals rfl

/-- C5, witness: identifying a null loader dispatches nothing, returns false
and sets the boot-error marker; and a concrete UmdReplace leaves a running
coarse state untouched. -/
theorem loadFile_fatal_sets_boot_error_witness :
    ((LoadFile envNull worldUnknown CoreState.CORE_RUNNING none "").ok = false ∧
      (LoadFile envNull worldUnknown CoreState.CORE_RUNNING none "").coreState =
        CoreState.CORE_BOOT_ERROR) ∧
    (UmdReplace envNull worldUnknown ⟨true, none⟩ CoreState.CORE_RUNNING "" pathXyz).coreState =
      CoreState.CORE_RUNNING :=
  ⟨(loadFile_fatal_sets_boot_error envNull worldUnknown CoreState.CORE_RUNNING none "").1
      (by decide),
   (loadFile_fatal_sets_boot_error envNull worldUnknown CoreState.CORE_RUNNING none "").2
      ⟨true, none⟩ "" pathXyz⟩

/-- C9.  Whenever LoadFile hands off to a downstream loading routine, the
coarse execution state is left exactly as it was, whatever the routine
returns: the boot-error marker is written only on dispatch-terminal
branches. -/
theorem loadFile_dispatch_preserves_coreState (env : Externals) (world : Path → Accessor)
    (cs : CoreState) (fl : Option Accessor) (e : String) (d : DispatchTarget) :
    (LoadFile env world cs fl e).dispatched = some d →
    (LoadFile env world cs fl e).coreState = cs := by
  simp only [LoadFile]
  repeat' split
  all_goals simp

/-- C9, witness: a .cso file dispatches to the iso loader; with a loader that
fails, LoadFile returns that failure and the running state is preserved. -/
theorem loadFile_dispatch_preserves_coreState_witness :
    (LoadFile envNull worldUnknown CoreState.CORE_RUNNING (some accCso) "").coreState =
      CoreState.CORE_RUNNING ∧
    (LoadFile envNull worldUnknown CoreState.CORE_RUNNING (some accCso) "").ok = false :=
  ⟨loadFile_dispatch_preserves_coreState envNull worldUnknown CoreState.CORE_RUNNING
      (some accCso) "" DispatchTarget.isoLoader (by decide),
   by decide⟩

/-- C1, counterexample.  A replacement path whose accessor exists but
identifies as an unsupported type makes UmdReplace fail, yet the failing
return leaves the new accessor registered as the session binding (changed
from the prior binding) and never released: the replace is not
all-or-nothing. -/
theorem umdReplace_failure_keeps_new_binding_cex :
    (UmdReplace envNull worldUnknown ⟨true, none⟩ CoreState.CORE_RUNNING "" pathXyz).ok =
      false ∧
    (UmdReplace envNull worldUnknown ⟨true, none⟩ CoreState.CORE_RUNNING "" pathXyz).loadedFile ≠
      (⟨true, none⟩ : UmdSession).loadedFile ∧
    (UmdReplace envNull worldUnknown ⟨true, none⟩ CoreState.CORE_RUNNING "" pathXyz).newConstructed =
      true ∧
    (UmdReplace envNull worldUnknown ⟨true, none⟩ CoreState.CORE_RUNNING "" pathXyz).newReleased =
      false := by
  decide

/-- C1, amended.  UmdReplace is atomic only up to registration: with no disc
bound it fails touching nothing; with a nonexistent replacement path it fails
releasing the new accessor and keeping the old binding; but as soon as the
new accessor exists it is registered as the session binding (releasing the
old one) before identification, and every later outcome -- success, reinit
failure, or unsupported type -- returns with the new accessor registered and
not released by UmdReplace itself. -/
theorem umdReplace_binding_behavior (env : Externals) (world : Path → Accessor)
    (session : UmdSession) (cs : CoreState) (e : String) (p : Path) :
    (session.hasDisc = false →
      (UmdReplace env world session cs e p).ok = false ∧
      (UmdReplace env world session cs e p).loadedFile = session.loadedFile ∧
      (UmdReplace env world session cs e p).newConstructed = false) ∧
    (session.hasDisc = true → (world p).exists_ = false →
      (UmdReplace env world session cs e p).ok = false ∧
      (UmdReplace env world session cs e p).loadedFile = session.loadedFile ∧
      (UmdReplace env world session cs e p).newConstructed = true ∧
      (UmdReplace env world session cs e p).newReleased = true) ∧
    (session.hasDisc = true → (world p).exists_ = true →
      (UmdReplace env world session cs e p).loadedFile = some (world p) ∧
      (UmdReplace env world session cs e p).oldReleased = true ∧
      (UmdReplace env world session cs e p).newReleased = false) := by
  refine ⟨?_, ?_, ?_⟩
  · intro h
    simp [UmdReplace, h]
  · intro h hex
    simp [UmdReplace, h, hex]
  · intro h hex
    simp only [UmdReplace, UpdateLoadedFile, h, hex]
    repeat' split
    all_goals simp_all

/-- C1, witness for the amended theorem: past the existence check the binding
is the new accessor even though this concrete replace fails. -/
theorem umdReplace_binding_behavior_witness :
    (UmdReplace envNull worldUnknown ⟨true, none⟩ CoreState.CORE_RUNNING "" pathXyz).loadedFile =
      some (worldUnknown pathXyz) ∧
    (UmdReplace envNull worldUnknown ⟨true, none⟩ CoreState.CORE_RUNNING "" pathXyz).oldReleased =
      true ∧
    (UmdReplace envNull worldUnknown ⟨true, none⟩ CoreState.CORE_RUNNING "" pathXyz).newReleased =
      false :=
  (umdReplace_binding_behavior envNull worldUnknown ⟨true, none⟩ CoreState.CORE_RUNNING ""
    pathXyz).2.2 rfl rfl

end Loaders
